import Mathlib

/-!
Shallow embedding of the indicator-computation and signal-derivation engine of
the stock analyzer (`calculateIndicators` and its inner helpers in
`src/unnamed/part_001`), together with theorems settling the frozen claims
about its specification.

JavaScript numbers are modelled by `JNum` (a rational, NaN, or a signed
infinity); prices and volumes that enter the engine are plain rationals
(`parseFloat` output on well-formed provider data).  Code that can throw is
modelled in `Except JsError`.
-/

deriving instance DecidableEq for Except

namespace StockAnalyzer

/-- A JavaScript runtime error.  The only error the engine itself can raise is
the `TypeError` produced by calling a non-function (see `sma20Entry`). -/
inductive JsError where
  | typeError
deriving DecidableEq

/-- A JavaScript number: a finite value (modelled as a rational), `NaN`, or a
signed infinity.  Signed zero is not distinguished (the engine never observes
the sign of a zero). -/
inductive JNum where
  | num (q : ℚ)
  | nan
  | posInf
  | negInf
deriving DecidableEq

namespace JNum

/-- JavaScript `+` on numbers: `NaN` is absorbing, `Infinity + (-Infinity)` is `NaN`. -/
def add : JNum → JNum → JNum
  | num a, num b => num (a + b)
  | num _, posInf => posInf
  | posInf, num _ => posInf
  | posInf, posInf => posInf
  | num _, negInf => negInf
  | negInf, num _ => negInf
  | negInf, negInf => negInf
  | _, _ => nan

/-- JavaScript binary `-` on numbers. -/
def sub : JNum → JNum → JNum
  | num a, num b => num (a - b)
  | num _, negInf => posInf
  | posInf, num _ => posInf
  | posInf, negInf => posInf
  | num _, posInf => negInf
  | negInf, num _ => negInf
  | negInf, posInf => negInf
  | _, _ => nan

/-- JavaScript `*` on numbers: `0 * Infinity` is `NaN`. -/
def mul : JNum → JNum → JNum
  | num a, num b => num (a * b)
  | num a, posInf => if a = 0 then nan else if 0 < a then posInf else negInf
  | posInf, num a => if a = 0 then nan else if 0 < a then posInf else negInf
  | num a, negInf => if a = 0 then nan else if 0 < a then negInf else posInf
  | negInf, num a => if a = 0 then nan else if 0 < a then negInf else posInf
  | posInf, posInf => posInf
  | negInf, negInf => posInf
  | posInf, negInf => negInf
  | negInf, posInf => negInf
  | _, _ => nan

/-- JavaScript `/` on numbers: `0/0` is `NaN`, a nonzero finite value divided
by zero is a signed infinity, anything with a `NaN` operand is `NaN`. -/
def div : JNum → JNum → JNum
  | num a, num b =>
      if b = 0 then (if a = 0 then nan else if 0 < a then posInf else negInf)
      else num (a / b)
  | num _, posInf => num 0
  | num _, negInf => num 0
  | posInf, num b => if 0 ≤ b then posInf else negInf
  | negInf, num b => if 0 ≤ b then negInf else posInf
  | _, _ => nan

/-- JavaScript `<` on numbers: any comparison with `NaN` is `false`. -/
def lt : JNum → JNum → Bool
  | num a, num b => decide (a < b)
  | num _, posInf => true
  | negInf, num _ => true
  | negInf, posInf => true
  | _, _ => false

/-- JavaScript `>` on numbers. -/
def gt (a b : JNum) : Bool := lt b a

end JNum

/-- lodash `_.mean`: the sum divided by the length, and `NaN` on an empty
array (lodash returns `NAN` explicitly when the length is zero). -/
def jmean (l : List ℚ) : JNum :=
  if l = [] then JNum.nan else JNum.num (l.sum / l.length)

/-- One OHLCV bar, in the field order built by `formattedData`.  The source
field `open` is renamed `openPrice` because `open` is a Lean keyword. -/
structure Bar where
  date : String
  close : ℚ
  volume : ℚ
  high : ℚ
  low : ℚ
  openPrice : ℚ
deriving DecidableEq

/-- The `indicators` object of an analysis result.  `sma20` is `Option` valued
because the source stores `null` there when fewer than 20 bars exist. -/
structure Indicators where
  sma20 : Option ℚ
  rsi : JNum
  vwap : JNum
  confidence : Int
deriving DecidableEq

/-- The engine's output object `{signal, reasoning, indicators, currentPrice}`. -/
structure AnalysisResult where
  signal : String
  reasoning : List String
  indicators : Indicators
  currentPrice : ℚ
deriving DecidableEq

/-- `calculateVWAP`: `_.sumBy(data, d => d.close * d.volume) / _.sumBy(data, 'volume')`,
with JavaScript division semantics (`0/0` is `NaN`). -/
def calculateVWAP (data : List Bar) : JNum :=
  JNum.div (JNum.num ((data.map (fun d => d.close * d.volume)).sum))
    (JNum.num ((data.map Bar.volume).sum))

/-- `prices.slice(1).map((price, i) => price - prices[i])`: consecutive
differences, one fewer than the number of prices. -/
def changes (prices : List ℚ) : List ℚ :=
  List.zipWith (fun a b => a - b) (prices.drop 1) prices

/-- `changes.map(change => change > 0 ? change : 0)`. -/
def gains (prices : List ℚ) : List ℚ :=
  (changes prices).map (fun change => if 0 < change then change else 0)

/-- `changes.map(change => change < 0 ? -change : 0)`. -/
def losses (prices : List ℚ) : List ℚ :=
  (changes prices).map (fun change => if change < 0 then -change else 0)

/-- `_.mean(gains.slice(0, period))`. -/
def avgGain (prices : List ℚ) (period : ℕ) : JNum :=
  jmean ((gains prices).take period)

/-- `_.mean(losses.slice(0, period))`. -/
def avgLoss (prices : List ℚ) (period : ℕ) : JNum :=
  jmean ((losses prices).take period)

/-- `calculateRSI(prices, period)`: if `avgLoss === 0` return 100, otherwise
`100 - 100/(1 + avgGain/avgLoss)`, with JavaScript number semantics (so a `NaN`
average from an empty slice propagates to a `NaN` RSI).  The source gives
`period` the default value 14; callers here pass 14 explicitly. -/
def calculateRSI (prices : List ℚ) (period : ℕ) : JNum :=
  if avgLoss prices period = JNum.num 0 then JNum.num 100
  else
    let rs := JNum.div (avgGain prices period) (avgLoss prices period)
    JNum.sub (JNum.num 100) (JNum.div (JNum.num 100) (JNum.add (JNum.num 1) rs))

/-- One evaluation of the callback of `data.map((_, index, array) => ...)` that
builds `sma20`.  For `index < 19` the callback returns `null` without touching
`_`.  For `index ≥ 19` it evaluates `_.mean(...)`, but the callback parameter
`_` shadows the lodash import and is bound to the current bar object, whose
`mean` property is `undefined` — so the call throws a `TypeError` and the
sliced-mean expression written in the source is never computed. -/
def sma20Entry (index : ℕ) : Except JsError (Option ℚ) :=
  if index < 19 then Except.ok none else Except.error JsError.typeError

/-- `Array.prototype.map` evaluates its callback left to right on indices
`index, index+1, …`; a thrown error propagates out of the whole `map`. -/
def sma20Aux : ℕ → ℕ → Except JsError (List (Option ℚ))
  | _, 0 => Except.ok []
  | index, remaining + 1 =>
    match sma20Entry index with
    | Except.error e => Except.error e
    | Except.ok v =>
      match sma20Aux (index + 1) remaining with
      | Except.error e => Except.error e
      | Except.ok rest => Except.ok (v :: rest)

/-- `const sma20 = data.map((_, index, array) => ...)`. -/
def sma20List (data : List Bar) : Except JsError (List (Option ℚ)) :=
  sma20Aux 0 data.length

/-- Bar used only as the default of `getD`; `data[data.length - 1]` is read
only after the emptiness guard, so the default is never observed. -/
def fallbackBar : Bar := ⟨"", 0, 0, 0, 0, 0⟩

/-- `data[data.length - 1]` (only evaluated on non-empty data). -/
def lastBar (data : List Bar) : Bar :=
  (data.getLast?).getD fallbackBar

/-- Rule 1, price vs VWAP: `currentPrice > vwap` gives `+1` and the "above"
string, otherwise `-1` and the "below" string.  Result: (confidence delta,
reasoning strings pushed). -/
def rule1 (currentPrice : ℚ) (vwap : JNum) : Int × List String :=
  if JNum.gt (JNum.num currentPrice) vwap then (1, ["Price is trading above VWAP"])
  else (-1, ["Price is trading below VWAP"])

/-- Rule 2, volume analysis: `currentVol > avgVolume * 1.5` gives `+1` and one
string; there is no penalty branch. -/
def rule2 (currentVol : ℚ) (avgVolume : JNum) : Int × List String :=
  if JNum.gt (JNum.num currentVol) (JNum.mul avgVolume (JNum.num (3 / 2))) then
    (1, ["Unusually high volume detected"])
  else (0, [])

/-- Rule 3, RSI analysis: `rsi > 70` gives `-2`, `rsi < 30` gives `+2`,
otherwise nothing (a `NaN` RSI satisfies neither comparison). -/
def rule3 (rsi : JNum) : Int × List String :=
  if JNum.gt rsi (JNum.num 70) then (-2, ["RSI indicates overbought conditions"])
  else if JNum.lt rsi (JNum.num 30) then (2, ["RSI indicates oversold conditions"])
  else (0, [])

/-- The JavaScript relational comparison `currentPrice > sma20Current` where
`sma20Current` may be `null`: ToNumber coerces `null` to `+0`, so against a
`null` SMA the comparison is `currentPrice > 0`. -/
def gtSma (currentPrice : ℚ) : Option ℚ → Bool
  | none => decide (0 < currentPrice)
  | some s => decide (s < currentPrice)

/-- Rule 4, trend analysis: `currentPrice > sma20Current` gives `+1` and the
"above" string, otherwise `-1` and the "below" string. -/
def rule4 (currentPrice : ℚ) (sma20Current : Option ℚ) : Int × List String :=
  if gtSma currentPrice sma20Current then (1, ["Price is above 20-period moving average"])
  else (-1, ["Price is below 20-period moving average"])

/-- The body of `calculateIndicators` after the `sma20` array has been built:
computes RSI, VWAP, the current price/volume, the average volume and
`sma20Current = sma20[sma20.length - 1]`, runs the four rules in order
(confidence starting at 0, reasoning strings pushed in rule order), maps the
accumulated confidence to the final signal, and assembles the result object. -/
def buildResult (data : List Bar) (sma20 : List (Option ℚ)) : AnalysisResult :=
  let prices := data.map Bar.close
  let rsi := calculateRSI prices 14
  let vwap := calculateVWAP data
  let currentPrice := (lastBar data).close
  let currentVol := (lastBar data).volume
  let avgVolume := jmean (data.map Bar.volume)
  let sma20Current := (sma20.getLast?).getD none
  let s1 := rule1 currentPrice vwap
  let s2 := rule2 currentVol avgVolume
  let s3 := rule3 rsi
  let s4 := rule4 currentPrice sma20Current
  let confidence := s1.1 + s2.1 + s3.1 + s4.1
  let reasoning := s1.2 ++ s2.2 ++ s3.2 ++ s4.2
  let signal :=
    if confidence ≥ 2 then "BUY" else if confidence ≤ -2 then "SELL" else "HOLD"
  { signal := signal
    reasoning := reasoning
    indicators := { sma20 := sma20Current, rsi := rsi, vwap := vwap, confidence := confidence }
    currentPrice := currentPrice }

/-- `calculateIndicators(data)`: `null` (here `Option.none`) for empty input;
otherwise the `sma20` map runs first (throwing a `TypeError` as soon as index
19 exists, i.e. whenever the series has at least 20 bars) and the rest of the
body builds the analysis result. -/
def calculateIndicators (data : List Bar) : Except JsError (Option AnalysisResult) :=
  if data.length = 0 then Except.ok none
  else
    match sma20List data with
    | Except.error e => Except.error e
    | Except.ok sma20 => Except.ok (some (buildResult data sma20))

/-! ## General lemmas about the embedded engine -/

/-- While every produced index stays below 19, the `sma20` map returns a list
of `null`s of the requested length. -/
lemma sma20Aux_ok : ∀ (remaining index : ℕ), index + remaining ≤ 19 →
    sma20Aux index remaining = Except.ok (List.replicate remaining none) := by
  intro remaining
  induction remaining with
  | zero => intro index _; rfl
  | succ r ih =>
    intro index h
    have hidx : index < 19 := by omega
    have hrec := ih (index + 1) (by omega)
    simp only [sma20Aux, sma20Entry, if_pos hidx, hrec, List.replicate_succ]

/-- As soon as the `sma20` map reaches index 19 the shadowed `_.mean` call
throws, so for at least 20 remaining indices the whole map is a `TypeError`. -/
lemma sma20Aux_error : ∀ (remaining index : ℕ), index ≤ 19 → 19 < index + remaining →
    sma20Aux index remaining = Except.error JsError.typeError := by
  intro remaining
  induction remaining with
  | zero => intro index h1 h2; omega
  | succ r ih =>
    intro index h1 h2
    by_cases hidx : index < 19
    · have hrec := ih (index + 1) (by omega) (by omega)
      simp only [sma20Aux, sma20Entry, if_pos hidx, hrec]
    · have h19 : ¬ index < 19 := hidx
      simp only [sma20Aux, sma20Entry, if_neg h19]

/-- The last entry of a list of `null`s, read defensively, is `null`. -/
lemma replicate_none_getLast (n : ℕ) :
    ((List.replicate n (none : Option ℚ)).getLast?).getD none = none := by
  cases n with
  | zero => rfl
  | succ m => rw [List.getLast?_replicate]; simp

/-- On a series of 1 to 19 bars, `calculateIndicators` returns the result
built from an all-`null` `sma20` array. -/
lemma calculateIndicators_ok (data : List Bar) (h1 : data ≠ []) (h2 : data.length ≤ 19) :
    calculateIndicators data =
      Except.ok (some (buildResult data (List.replicate data.length none))) := by
  have h0 : ¬ data.length = 0 := by simpa using h1
  rw [calculateIndicators, if_neg h0, sma20List, sma20Aux_ok data.length 0 (by omega)]

/-- On a series of at least 20 bars, `calculateIndicators` throws a
`TypeError` (the shadowed lodash `_` in the `sma20` callback). -/
lemma calculateIndicators_error (data : List Bar) (h : 20 ≤ data.length) :
    calculateIndicators data = Except.error JsError.typeError := by
  have h0 : ¬ data.length = 0 := by omega
  rw [calculateIndicators, if_neg h0, sma20List, sma20Aux_error data.length 0 (by omega) (by omega)]

/-- Inversion: a populated result can only come from a series of 1 to 19
bars, and is then the one built from an all-`null` `sma20` array. -/
lemma calculateIndicators_ok_inv (data : List Bar) (r : AnalysisResult)
    (h : calculateIndicators data = Except.ok (some r)) :
    data ≠ [] ∧ data.length ≤ 19 ∧
      r = buildResult data (List.replicate data.length none) := by
  by_cases h0 : data.length = 0
  · rw [calculateIndicators, if_pos h0] at h
    simp at h
  · by_cases h19 : data.length ≤ 19
    · have hne : data ≠ [] := by
        intro hnil; exact h0 (by simp [hnil])
      have := calculateIndicators_ok data hne h19
      rw [this] at h
      refine ⟨hne, h19, ?_⟩
      injection h with h'
      injection h' with h''
      exact h''.symm
    · have := calculateIndicators_error data (by omega)
      rw [this] at h
      cases h

/-- The fields of `buildResult` over an all-`null` `sma20` array, written
out: the four rules run in order on the full-series VWAP, the full-series
average volume, the 14-period RSI and a `null` current SMA. -/
lemma buildResult_fields (data : List Bar) (n : ℕ) :
    buildResult data (List.replicate n none) =
      { signal :=
          if (rule1 (lastBar data).close (calculateVWAP data)).1 +
              (rule2 (lastBar data).volume (jmean (data.map Bar.volume))).1 +
              (rule3 (calculateRSI (data.map Bar.close) 14)).1 +
              (rule4 (lastBar data).close none).1 ≥ 2 then "BUY"
          else if (rule1 (lastBar data).close (calculateVWAP data)).1 +
              (rule2 (lastBar data).volume (jmean (data.map Bar.volume))).1 +
              (rule3 (calculateRSI (data.map Bar.close) 14)).1 +
              (rule4 (lastBar data).close none).1 ≤ -2 then "SELL"
          else "HOLD"
        reasoning :=
          (rule1 (lastBar data).close (calculateVWAP data)).2 ++
            (rule2 (lastBar data).volume (jmean (data.map Bar.volume))).2 ++
            (rule3 (calculateRSI (data.map Bar.close) 14)).2 ++
            (rule4 (lastBar data).close none).2
        indicators :=
          { sma20 := none
            rsi := calculateRSI (data.map Bar.close) 14
            vwap := calculateVWAP data
            confidence :=
              (rule1 (lastBar data).close (calculateVWAP data)).1 +
                (rule2 (lastBar data).volume (jmean (data.map Bar.volume))).1 +
                (rule3 (calculateRSI (data.map Bar.close) 14)).1 +
                (rule4 (lastBar data).close none).1 }
        currentPrice := (lastBar data).close } := by
  rw [buildResult, replicate_none_getLast]

/-- Each rule returns one of finitely many (delta, strings) pairs. -/
lemma rule1_cases (p : ℚ) (v : JNum) :
    rule1 p v = (1, ["Price is trading above VWAP"]) ∨
      rule1 p v = (-1, ["Price is trading below VWAP"]) := by
  rw [rule1]; split
  · exact Or.inl rfl
  · exact Or.inr rfl

lemma rule2_cases (cv : ℚ) (av : JNum) :
    rule2 cv av = (1, ["Unusually high volume detected"]) ∨ rule2 cv av = (0, []) := by
  rw [rule2]; split
  · exact Or.inl rfl
  · exact Or.inr rfl

lemma rule3_cases (rsi : JNum) :
    rule3 rsi = (-2, ["RSI indicates overbought conditions"]) ∨
      rule3 rsi = (2, ["RSI indicates oversold conditions"]) ∨ rule3 rsi = (0, []) := by
  rw [rule3]; split
  · exact Or.inl rfl
  · split
    · exact Or.inr (Or.inl rfl)
    · exact Or.inr (Or.inr rfl)

lemma rule4_cases (p : ℚ) (s : Option ℚ) :
    rule4 p s = (1, ["Price is above 20-period moving average"]) ∨
      rule4 p s = (-1, ["Price is below 20-period moving average"]) := by
  rw [rule4]; split
  · exact Or.inl rfl
  · exact Or.inr rfl

/-- A list of nonnegative rationals summing to zero is all zero. -/
lemma eq_zero_of_sum_nonneg_eq_zero :
    ∀ l : List ℚ, (∀ x ∈ l, 0 ≤ x) → l.sum = 0 → ∀ x ∈ l, x = 0 := by
  intro l
  induction l with
  | nil => intro _ _ x hx; simp at hx
  | cons a t ih =>
    intro hnn h0 x hx
    have ha : 0 ≤ a := hnn a (List.mem_cons_self a t)
    have ht : 0 ≤ t.sum := List.sum_nonneg (fun y hy => hnn y (List.mem_cons_of_mem a hy))
    rw [List.sum_cons] at h0
    have ha0 : a = 0 := by linarith
    have ht0 : t.sum = 0 := by linarith
    rcases List.mem_cons.mp hx with h | h
    · rw [h, ha0]
    · exact ih (fun y hy => hnn y (List.mem_cons_of_mem a hy)) ht0 x h

/-! ## Concrete sample data -/

/-- A single bar with close 10 and volume 4. -/
def barTen : Bar := ⟨"2024-01-02", 10, 4, 10, 10, 10⟩

/-- A one-bar series. -/
def dataOne : List Bar := [barTen]

/-- The analysis the engine produces on `dataOne`: price equals VWAP so rule 1
penalises, RSI is `NaN` (empty change list) so rule 3 is silent, and the
`null`-SMA comparison of rule 4 resolves to the "above" branch. -/
def resultOne : AnalysisResult :=
  { signal := "HOLD"
    reasoning := ["Price is trading below VWAP", "Price is above 20-period moving average"]
    indicators := { sma20 := none, rsi := JNum.nan, vwap := JNum.num 10, confidence := 0 }
    currentPrice := 10 }

/-- A twenty-bar series (the shortest length on which the `sma20` callback
reaches index 19). -/
def dataTwenty : List Bar := List.replicate 20 barTen

lemma vwap_dataOne : calculateVWAP dataOne = JNum.num 10 := by
  simp only [calculateVWAP, dataOne, barTen, List.map_cons, List.map_nil, List.sum_cons,
    List.sum_nil]
  norm_num [JNum.div]

lemma avgVol_dataOne : jmean (dataOne.map Bar.volume) = JNum.num 4 := by
  simp only [jmean, dataOne, barTen, List.map_cons, List.map_nil, List.sum_cons, List.sum_nil]
  norm_num

lemma rsi_single (c : ℚ) : calculateRSI [c] 14 = JNum.nan := rfl

lemma calcOne : calculateIndicators dataOne = Except.ok (some resultOne) := by
  rw [calculateIndicators_ok dataOne (by decide) (by decide), buildResult_fields]
  rw [vwap_dataOne, avgVol_dataOne]
  norm_num [rule1, rule2, rule3, rule4, gtSma, JNum.gt, JNum.lt, JNum.mul, resultOne, lastBar,
    dataOne, barTen, rsi_single]

/-! ## Claims -/

/-- Claim C9: for the empty series, `analyze` returns absence (`null`), not an
error and not a populated `AnalysisResult`. -/
theorem C9_empty_input_returns_absence :
    calculateIndicators [] = Except.ok none := rfl

/-- Claim C6 (code bug evaluated at the failing input): on a series of exactly
20 bars the engine does not produce any SMA value at all — the `sma20` map
callback's parameter `_` shadows the lodash import, so `_.mean` is `undefined`
at index 19 and the whole analysis throws a `TypeError` instead of yielding
`mean` of the 20 closes. -/
theorem C6_twenty_bars_throw :
    calculateIndicators dataTwenty = Except.error JsError.typeError := by decide

/-- Claim C8: the engine is deterministic — invoking `analyze` on identical
input yields identical outcomes, including the order and content of the
reasoning list and all indicator fields (the embedded engine is a pure
function of the bar series). -/
theorem C8_deterministic (d d' : List Bar) (h : d = d') :
    calculateIndicators d = calculateIndicators d' := by rw [h]

theorem C8_deterministic_witness :
    dataOne = dataOne ∧ calculateIndicators dataOne = calculateIndicators dataOne :=
  ⟨rfl, C8_deterministic dataOne dataOne rfl⟩

/-- Claim C4: whenever the engine returns a result, the final signal is
determined solely by the accumulated confidence: `confidence ≥ 2` yields BUY,
`confidence ≤ -2` yields SELL, and every other confidence (in particular 1 and
-1) yields HOLD. -/
theorem C4_signal_thresholds (data : List Bar) (r : AnalysisResult)
    (h : calculateIndicators data = Except.ok (some r)) :
    r.signal =
      if r.indicators.confidence ≥ 2 then "BUY"
      else if r.indicators.confidence ≤ -2 then "SELL"
      else "HOLD" := by
  obtain ⟨-, -, rfl⟩ := calculateIndicators_ok_inv data r h
  rw [buildResult_fields]

theorem C4_signal_thresholds_witness :
    calculateIndicators dataOne = Except.ok (some resultOne) ∧
      resultOne.signal =
        (if resultOne.indicators.confidence ≥ 2 then "BUY"
         else if resultOne.indicators.confidence ≤ -2 then "SELL"
         else "HOLD") :=
  ⟨calcOne, C4_signal_thresholds dataOne resultOne calcOne⟩

/-- Claim C3: whenever the engine returns a result, its `vwap` field equals
Σ(close·volume)/Σ(volume) over every bar of the series, and on a series of
(nonnegative-volume) bars whose total volume is zero it resolves to the `NaN`
sentinel rather than an uncaught arithmetic fault. -/
theorem C3_vwap_full_series (data : List Bar) (r : AnalysisResult)
    (h : calculateIndicators data = Except.ok (some r)) :
    ((data.map Bar.volume).sum ≠ 0 →
      r.indicators.vwap =
        JNum.num ((data.map (fun d => d.close * d.volume)).sum / (data.map Bar.volume).sum)) ∧
    ((∀ b ∈ data, 0 ≤ b.volume) → (data.map Bar.volume).sum = 0 →
      r.indicators.vwap = JNum.nan) := by
  obtain ⟨-, -, rfl⟩ := calculateIndicators_ok_inv data r h
  rw [buildResult_fields]
  constructor
  · intro hs
    show calculateVWAP data = _
    simp [calculateVWAP, JNum.div, hs]
  · intro hnn h0
    have hv : ∀ x ∈ data.map Bar.volume, x = 0 := by
      apply eq_zero_of_sum_nonneg_eq_zero
      · intro x hx
        rcases List.mem_map.mp hx with ⟨b, hb, rfl⟩
        exact hnn b hb
      · exact h0
    have hpv : (data.map (fun d => d.close * d.volume)).sum = 0 := by
      apply List.sum_eq_zero
      intro x hx
      rcases List.mem_map.mp hx with ⟨b, hb, rfl⟩
      have hb0 : b.volume = 0 := hv b.volume (List.mem_map.mpr ⟨b, hb, rfl⟩)
      rw [hb0, mul_zero]
    show calculateVWAP data = _
    simp [calculateVWAP, JNum.div, h0, hpv]

theorem C3_vwap_witness :
    calculateIndicators dataOne = Except.ok (some resultOne) ∧
    (dataOne.map Bar.volume).sum ≠ 0 ∧
    resultOne.indicators.vwap =
      JNum.num ((dataOne.map (fun d => d.close * d.volume)).sum / (dataOne.map Bar.volume).sum) :=
  ⟨calcOne, by norm_num [dataOne, barTen],
    (C3_vwap_full_series dataOne resultOne calcOne).1 (by norm_num [dataOne, barTen])⟩

/-- Claim C5: whenever the engine returns a result, confidence is the sum of
the four rules' adjustments starting from 0, and the reasoning strings appear
in the fixed rule order VWAP, volume, RSI, SMA — each firing rule appending
exactly one string with its stated adjustment (VWAP ±1; volume +1 only above
1.5× the mean volume with no penalty branch; RSI −2 above 70 or +2 below 30
and nothing otherwise; SMA-comparison ±1). -/
theorem C5_rule_order (data : List Bar) (r : AnalysisResult)
    (h : calculateIndicators data = Except.ok (some r)) :
    r.reasoning =
      (if JNum.gt (JNum.num (lastBar data).close) (calculateVWAP data) then
          ["Price is trading above VWAP"] else ["Price is trading below VWAP"]) ++
      (if JNum.gt (JNum.num (lastBar data).volume)
            (JNum.mul (jmean (data.map Bar.volume)) (JNum.num (3 / 2))) then
          ["Unusually high volume detected"] else []) ++
      (if JNum.gt (calculateRSI (data.map Bar.close) 14) (JNum.num 70) then
          ["RSI indicates overbought conditions"]
        else if JNum.lt (calculateRSI (data.map Bar.close) 14) (JNum.num 30) then
          ["RSI indicates oversold conditions"] else []) ++
      (if gtSma (lastBar data).close none then ["Price is above 20-period moving average"]
        else ["Price is below 20-period moving average"]) ∧
    r.indicators.confidence =
      (if JNum.gt (JNum.num (lastBar data).close) (calculateVWAP data) then 1 else -1) +
      (if JNum.gt (JNum.num (lastBar data).volume)
            (JNum.mul (jmean (data.map Bar.volume)) (JNum.num (3 / 2))) then 1 else 0) +
      (if JNum.gt (calculateRSI (data.map Bar.close) 14) (JNum.num 70) then -2
        else if JNum.lt (calculateRSI (data.map Bar.close) 14) (JNum.num 30) then 2 else 0) +
      (if gtSma (lastBar data).close none then 1 else -1) := by
  obtain ⟨-, -, rfl⟩ := calculateIndicators_ok_inv data r h
  rw [buildResult_fields]
  constructor
  · show (rule1 _ _).2 ++ (rule2 _ _).2 ++ (rule3 _).2 ++ (rule4 _ _).2 = _
    simp only [rule1, rule2, rule3, rule4, apply_ite Prod.snd]
  · show (rule1 _ _).1 + (rule2 _ _).1 + (rule3 _).1 + (rule4 _ _).1 = _
    simp only [rule1, rule2, rule3, rule4, apply_ite Prod.fst]

theorem C5_rule_order_witness :
    calculateIndicators dataOne = Except.ok (some resultOne) ∧
    (resultOne.reasoning =
      (if JNum.gt (JNum.num (lastBar dataOne).close) (calculateVWAP dataOne) then
          ["Price is trading above VWAP"] else ["Price is trading below VWAP"]) ++
      (if JNum.gt (JNum.num (lastBar dataOne).volume)
            (JNum.mul (jmean (dataOne.map Bar.volume)) (JNum.num (3 / 2))) then
          ["Unusually high volume detected"] else []) ++
      (if JNum.gt (calculateRSI (dataOne.map Bar.close) 14) (JNum.num 70) then
          ["RSI indicates overbought conditions"]
        else if JNum.lt (calculateRSI (dataOne.map Bar.close) 14) (JNum.num 30) then
          ["RSI indicates oversold conditions"] else []) ++
      (if gtSma (lastBar dataOne).close none then ["Price is above 20-period moving average"]
        else ["Price is below 20-period moving average"]) ∧
    resultOne.indicators.confidence =
      (if JNum.gt (JNum.num (lastBar dataOne).close) (calculateVWAP dataOne) then 1 else -1) +
      (if JNum.gt (JNum.num (lastBar dataOne).volume)
            (JNum.mul (jmean (dataOne.map Bar.volume)) (JNum.num (3 / 2))) then 1 else 0) +
      (if JNum.gt (calculateRSI (dataOne.map Bar.close) 14) (JNum.num 70) then -2
        else if JNum.lt (calculateRSI (dataOne.map Bar.close) 14) (JNum.num 30) then 2 else 0) +
      (if gtSma (lastBar dataOne).close none then 1 else -1)) :=
  ⟨calcOne, C5_rule_order dataOne resultOne calcOne⟩

/-- The reasoning list of any produced result is the in-order concatenation of
the four rules' pushed strings. -/
lemma result_reasoning (data : List Bar) (r : AnalysisResult)
    (h : calculateIndicators data = Except.ok (some r)) :
    r.reasoning =
      (rule1 (lastBar data).close (calculateVWAP data)).2 ++
        (rule2 (lastBar data).volume (jmean (data.map Bar.volume))).2 ++
        (rule3 (calculateRSI (data.map Bar.close) 14)).2 ++
        (rule4 (lastBar data).close none).2 := by
  obtain ⟨-, -, rfl⟩ := calculateIndicators_ok_inv data r h
  rw [buildResult_fields]

/-- The confidence of any produced result is the sum of the four rules'
adjustments. -/
lemma result_confidence (data : List Bar) (r : AnalysisResult)
    (h : calculateIndicators data = Except.ok (some r)) :
    r.indicators.confidence =
      (rule1 (lastBar data).close (calculateVWAP data)).1 +
        (rule2 (lastBar data).volume (jmean (data.map Bar.volume))).1 +
        (rule3 (calculateRSI (data.map Bar.close) 14)).1 +
        (rule4 (lastBar data).close none).1 := by
  obtain ⟨-, -, rfl⟩ := calculateIndicators_ok_inv data r h
  rw [buildResult_fields]

/-- Claim C10: every produced result has between 2 and 4 reasoning entries,
exactly one VWAP-comparison string and exactly one moving-average-comparison
string among them, and a confidence in the integer range −4 to 5. -/
theorem C10_output_invariants (data : List Bar) (r : AnalysisResult)
    (h : calculateIndicators data = Except.ok (some r)) :
    2 ≤ r.reasoning.length ∧ r.reasoning.length ≤ 4 ∧
    r.reasoning.count "Price is trading above VWAP" +
      r.reasoning.count "Price is trading below VWAP" = 1 ∧
    r.reasoning.count "Price is above 20-period moving average" +
      r.reasoning.count "Price is below 20-period moving average" = 1 ∧
    -4 ≤ r.indicators.confidence ∧ r.indicators.confidence ≤ 5 := by
  rw [result_reasoning data r h, result_confidence data r h]
  rcases rule1_cases (lastBar data).close (calculateVWAP data) with h1 | h1 <;>
    rcases rule2_cases (lastBar data).volume (jmean (data.map Bar.volume)) with h2 | h2 <;>
    rcases rule3_cases (calculateRSI (data.map Bar.close) 14) with h3 | h3 | h3 <;>
    rcases rule4_cases (lastBar data).close none with h4 | h4 <;>
    rw [h1, h2, h3, h4] <;> decide

theorem C10_output_invariants_witness :
    calculateIndicators dataOne = Except.ok (some resultOne) ∧
    (2 ≤ resultOne.reasoning.length ∧ resultOne.reasoning.length ≤ 4 ∧
    resultOne.reasoning.count "Price is trading above VWAP" +
      resultOne.reasoning.count "Price is trading below VWAP" = 1 ∧
    resultOne.reasoning.count "Price is above 20-period moving average" +
      resultOne.reasoning.count "Price is below 20-period moving average" = 1 ∧
    -4 ≤ resultOne.indicators.confidence ∧ resultOne.indicators.confidence ≤ 5) :=
  ⟨calcOne, C10_output_invariants dataOne resultOne calcOne⟩

/-- Claim C1 (counterexample): on a one-bar series (fewer than 20 bars, so
the current SMA is `null`) with positive current price, rule 4 does NOT
resolve to the "below average" branch: the reasoning lacks the "below" string,
contains the "above" string, and confidence gains rather than loses the point
(net 0 here instead of the −2 the claim would predict). -/
theorem C1_below_branch_counterexample :
    calculateIndicators dataOne = Except.ok (some resultOne) ∧
    dataOne.length < 20 ∧ 0 < (lastBar dataOne).close ∧
    "Price is below 20-period moving average" ∉ resultOne.reasoning ∧
    "Price is above 20-period moving average" ∈ resultOne.reasoning ∧
    resultOne.indicators.confidence = 0 :=
  ⟨calcOne, by decide, by decide, by decide, by decide, by decide⟩

/-- Claim C1 as amended: for every series with fewer than 20 bars (current SMA
`null`) and positive current price, rule 4 resolves to the "above average"
branch — JavaScript coerces `null` to 0 in the relational comparison, so a
positive price compares greater — appending "Price is above 20-period moving
average" and adding 1 to confidence. -/
theorem C1_rule4_null_resolves_above (data : List Bar) (h1 : data ≠ [])
    (h2 : data.length < 20) (h3 : 0 < (lastBar data).close) :
    ∃ r, calculateIndicators data = Except.ok (some r) ∧
      "Price is above 20-period moving average" ∈ r.reasoning ∧
      "Price is below 20-period moving average" ∉ r.reasoning ∧
      r.indicators.confidence =
        (rule1 (lastBar data).close (calculateVWAP data)).1 +
          (rule2 (lastBar data).volume (jmean (data.map Bar.volume))).1 +
          (rule3 (calculateRSI (data.map Bar.close) 14)).1 + 1 := by
  have hcalc := calculateIndicators_ok data h1 (by omega)
  have h4 : rule4 (lastBar data).close none =
      (1, ["Price is above 20-period moving average"]) := by
    simp [rule4, gtSma, h3]
  have hr := result_reasoning data _ hcalc
  have hc := result_confidence data _ hcalc
  rw [h4] at hr hc
  refine ⟨_, hcalc, ?_, ?_, hc⟩ <;>
    rcases rule1_cases (lastBar data).close (calculateVWAP data) with e1 | e1 <;>
    rcases rule2_cases (lastBar data).volume (jmean (data.map Bar.volume)) with e2 | e2 <;>
    rcases rule3_cases (calculateRSI (data.map Bar.close) 14) with e3 | e3 | e3 <;>
    rw [e1, e2, e3] at hr <;> rw [hr] <;> decide

theorem C1_rule4_null_resolves_above_witness :
    dataOne ≠ [] ∧ dataOne.length < 20 ∧ 0 < (lastBar dataOne).close ∧
    (∃ r, calculateIndicators dataOne = Except.ok (some r) ∧
      "Price is above 20-period moving average" ∈ r.reasoning ∧
      "Price is below 20-period moving average" ∉ r.reasoning ∧
      r.indicators.confidence =
        (rule1 (lastBar dataOne).close (calculateVWAP dataOne)).1 +
          (rule2 (lastBar dataOne).volume (jmean (dataOne.map Bar.volume))).1 +
          (rule3 (calculateRSI (dataOne.map Bar.close) 14)).1 + 1) :=
  ⟨by decide, by decide, by decide,
    C1_rule4_null_resolves_above dataOne (by decide) (by decide) (by decide)⟩

/-- Claim C2 (counterexample): on a single-bar series the gains/losses slices
are empty and lodash `_.mean` of an empty array is `NaN`, not 0 — so `avgLoss`
is `NaN` (not 0), the `avgLoss === 0` branch does not fire, and the RSI of the
returned result is `NaN` (not 100). -/
theorem C2_single_bar_counterexample :
    calculateIndicators dataOne = Except.ok (some resultOne) ∧
    dataOne.length = 1 ∧
    avgLoss (dataOne.map Bar.close) 14 ≠ JNum.num 0 ∧
    avgLoss (dataOne.map Bar.close) 14 = JNum.nan ∧
    resultOne.indicators.rsi ≠ JNum.num 100 ∧ resultOne.indicators.rsi = JNum.nan :=
  ⟨calcOne, rfl, by decide, by decide, by decide, by decide⟩

/-- Claim C2 as amended: for every non-empty series with fewer than 15 bars
the RSI computation does not abort the analysis — `analyze` still returns a
populated result — and for a single-bar series (empty change sequence) the
mean of the empty losses slice makes `avgLoss` equal `NaN`, so the RSI
resolves to `NaN` (the `avgLoss === 0` branch does not fire). -/
theorem C2_short_series_rsi (data : List Bar) (h1 : 1 ≤ data.length)
    (h2 : data.length < 15) :
    ∃ r, calculateIndicators data = Except.ok (some r) ∧
      (data.length = 1 →
        avgLoss (data.map Bar.close) 14 = JNum.nan ∧ r.indicators.rsi = JNum.nan) := by
  have hne : data ≠ [] := by
    intro hnil
    rw [hnil] at h1
    simp at h1
  have hcalc := calculateIndicators_ok data hne (by omega)
  refine ⟨_, hcalc, ?_⟩
  intro hl1
  rcases List.length_eq_one.mp hl1 with ⟨b, rfl⟩
  exact ⟨rfl, rsi_single b.close⟩

theorem C2_short_series_rsi_witness :
    1 ≤ dataOne.length ∧ dataOne.length < 15 ∧
    (∃ r, calculateIndicators dataOne = Except.ok (some r) ∧
      (dataOne.length = 1 →
        avgLoss (dataOne.map Bar.close) 14 = JNum.nan ∧ r.indicators.rsi = JNum.nan)) :=
  ⟨by decide, by decide, C2_short_series_rsi dataOne (by decide) (by decide)⟩

/-! ## RSI on monotone series (claim C7) -/

lemma changes_cons_cons (a b : ℚ) (t : List ℚ) :
    changes (a :: b :: t) = (b - a) :: changes (b :: t) := rfl

/-- On a strictly increasing price list every consecutive change is positive. -/
lemma changes_pos : ∀ p : List ℚ, List.Chain' (· < ·) p → ∀ c ∈ changes p, 0 < c := by
  intro p
  induction p with
  | nil => intro _ c hc; simp [changes] at hc
  | cons a t ih =>
    cases t with
    | nil => intro _ c hc; simp [changes] at hc
    | cons b t' =>
      intro hp c hc
      rw [List.chain'_cons] at hp
      rw [changes_cons_cons] at hc
      rcases List.mem_cons.mp hc with h | h
      · rw [h]; linarith [hp.1]
      · exact ih hp.2 c h

/-- On a strictly decreasing price list every consecutive change is negative. -/
lemma changes_neg : ∀ p : List ℚ, List.Chain' (· > ·) p → ∀ c ∈ changes p, c < 0 := by
  intro p
  induction p with
  | nil => intro _ c hc; simp [changes] at hc
  | cons a t ih =>
    cases t with
    | nil => intro _ c hc; simp [changes] at hc
    | cons b t' =>
      intro hp c hc
      rw [List.chain'_cons] at hp
      rw [changes_cons_cons] at hc
      rcases List.mem_cons.mp hc with h | h
      · rw [h]; have hba : b < a := hp.1; linarith
      · exact ih hp.2 c h

lemma length_changes (p : List ℚ) : (changes p).length = p.length - 1 := by
  simp [changes]

lemma take14_losses_len (p : List ℚ) (h : 15 ≤ p.length) :
    ((losses p).take 14).length = 14 := by
  have hll : (losses p).length = p.length - 1 := by simp [losses, length_changes]
  rw [List.length_take, hll, min_eq_left (by omega)]

lemma take14_losses_ne_nil (p : List ℚ) (h : 15 ≤ p.length) :
    (losses p).take 14 ≠ [] := by
  intro hnil
  have h14 := take14_losses_len p h
  rw [hnil] at h14
  simp at h14

lemma take14_gains_len (p : List ℚ) (h : 15 ≤ p.length) :
    ((gains p).take 14).length = 14 := by
  have hll : (gains p).length = p.length - 1 := by simp [gains, length_changes]
  rw [List.length_take, hll, min_eq_left (by omega)]

lemma take14_gains_ne_nil (p : List ℚ) (h : 15 ≤ p.length) :
    (gains p).take 14 ≠ [] := by
  intro hnil
  have h14 := take14_gains_len p h
  rw [hnil] at h14
  simp at h14

/-- Strictly increasing prices of length ≥ 15: the averaged losses are all
zero, so `avgLoss = 0` and the RSI short-circuits to 100. -/
lemma rsi_increasing (p : List ℚ) (h : 15 ≤ p.length) (hinc : List.Chain' (· < ·) p) :
    avgLoss p 14 = JNum.num 0 ∧ calculateRSI p 14 = JNum.num 100 := by
  have hl0 : ∀ x ∈ (losses p).take 14, x = 0 := by
    intro x hx
    rcases List.mem_map.mp (List.mem_of_mem_take hx) with ⟨c, hc, rfl⟩
    have hcpos := changes_pos p hinc c hc
    rw [if_neg (by linarith)]
  have havg : avgLoss p 14 = JNum.num 0 := by
    rw [avgLoss, jmean, if_neg (take14_losses_ne_nil p h), List.sum_eq_zero hl0]
    norm_num
  exact ⟨havg, by rw [calculateRSI, if_pos havg]⟩

/-- Strictly decreasing prices of length ≥ 15: the averaged gains are all
zero while the averaged losses are strictly positive, so `rs = 0` and the RSI
evaluates to `100 - 100/(1+0) = 0` — a number, not `NaN`. -/
lemma rsi_decreasing (p : List ℚ) (h : 15 ≤ p.length) (hdec : List.Chain' (· > ·) p) :
    avgGain p 14 = JNum.num 0 ∧ calculateRSI p 14 = JNum.num 0 ∧
      calculateRSI p 14 ≠ JNum.nan := by
  have hg0 : ∀ x ∈ (gains p).take 14, x = 0 := by
    intro x hx
    rcases List.mem_map.mp (List.mem_of_mem_take hx) with ⟨c, hc, rfl⟩
    have hcneg := changes_neg p hdec c hc
    rw [if_neg (by linarith)]
  have havgG : avgGain p 14 = JNum.num 0 := by
    rw [avgGain, jmean, if_neg (take14_gains_ne_nil p h), List.sum_eq_zero hg0]
    norm_num
  have hlpos : ∀ x ∈ (losses p).take 14, 0 < x := by
    intro x hx
    rcases List.mem_map.mp (List.mem_of_mem_take hx) with ⟨c, hc, rfl⟩
    have hcneg := changes_neg p hdec c hc
    rw [if_pos hcneg]
    linarith
  have hsum : 0 < ((losses p).take 14).sum :=
    List.sum_pos _ hlpos (take14_losses_ne_nil p h)
  have hmpos : 0 < ((losses p).take 14).sum / (((losses p).take 14).length : ℚ) := by
    apply div_pos hsum
    rw [take14_losses_len p h]
    norm_num
  have havgL : avgLoss p 14 =
      JNum.num (((losses p).take 14).sum / (((losses p).take 14).length : ℚ)) := by
    rw [avgLoss, jmean, if_neg (take14_losses_ne_nil p h)]
  have hne0 : ¬ avgLoss p 14 = JNum.num 0 := by
    rw [havgL]
    intro hcontra
    rw [JNum.num.injEq] at hcontra
    linarith
  have hzero : calculateRSI p 14 = JNum.num 0 := by
    rw [calculateRSI, if_neg hne0, havgG, havgL]
    simp only [JNum.div, JNum.add, JNum.sub, if_neg (ne_of_gt hmpos)]
    norm_num
  refine ⟨havgG, hzero, ?_⟩
  rw [hzero]
  decide

/-- Claim C7: for every series of at least 15 bars with strictly increasing
closes, `avgLoss = 0` and RSI = 100; with strictly decreasing closes,
`avgGain = 0` and RSI = 0, and in particular the RSI is not `NaN`. -/
theorem C7_rsi_monotone_extremes (data : List Bar) (h15 : 15 ≤ data.length) :
    (List.Chain' (· < ·) (data.map Bar.close) →
      avgLoss (data.map Bar.close) 14 = JNum.num 0 ∧
      calculateRSI (data.map Bar.close) 14 = JNum.num 100) ∧
    (List.Chain' (· > ·) (data.map Bar.close) →
      avgGain (data.map Bar.close) 14 = JNum.num 0 ∧
      calculateRSI (data.map Bar.close) 14 = JNum.num 0 ∧
      calculateRSI (data.map Bar.close) 14 ≠ JNum.nan) := by
  have hlen : 15 ≤ (data.map Bar.close).length := by simpa using h15
  exact ⟨rsi_increasing (data.map Bar.close) hlen, rsi_decreasing (data.map Bar.close) hlen⟩

/-- A 15-bar series with strictly increasing closes 1, 2, …, 15. -/
def dataUp : List Bar :=
  [⟨"t01", 1, 1, 1, 1, 1⟩, ⟨"t02", 2, 1, 2, 2, 2⟩, ⟨"t03", 3, 1, 3, 3, 3⟩,
   ⟨"t04", 4, 1, 4, 4, 4⟩, ⟨"t05", 5, 1, 5, 5, 5⟩, ⟨"t06", 6, 1, 6, 6, 6⟩,
   ⟨"t07", 7, 1, 7, 7, 7⟩, ⟨"t08", 8, 1, 8, 8, 8⟩, ⟨"t09", 9, 1, 9, 9, 9⟩,
   ⟨"t10", 10, 1, 10, 10, 10⟩, ⟨"t11", 11, 1, 11, 11, 11⟩, ⟨"t12", 12, 1, 12, 12, 12⟩,
   ⟨"t13", 13, 1, 13, 13, 13⟩, ⟨"t14", 14, 1, 14, 14, 14⟩, ⟨"t15", 15, 1, 15, 15, 15⟩]

lemma dataUp_chain : List.Chain' (· < ·) (dataUp.map Bar.close) := by
  norm_num [dataUp, List.chain'_cons]

theorem C7_rsi_monotone_extremes_witness :
    15 ≤ dataUp.length ∧ List.Chain' (· < ·) (dataUp.map Bar.close) ∧
    calculateRSI (dataUp.map Bar.close) 14 = JNum.num 100 :=
  ⟨by decide, dataUp_chain,
    ((C7_rsi_monotone_extremes dataUp (by decide)).1 dataUp_chain).2⟩

end StockAnalyzer
